import Mathlib

/-!
Verification of the xraymgr configuration pipeline and batch-test engine.

This file shallowly embeds the parts of the Python sources that the
checked claims refer to:

* `app/xraymgr/test_batch_10.py` — eligibility query, reservation,
  binding, release, result finalization, error-code policy, API probing;
* `app/xraymgr/importer.py` — multi-URI normalization and the
  unsupported-protocol pass;
* `app/xraymgr/group_updater.py` — group-id assignment and primary
  election;
* `app/xraymgr/hash_updater.py` — shadowsocks identity extraction and
  the canonical-JSON/SHA-256 fingerprint.

Database rows become Lean structures, tables become lists of rows, and
each SQL statement becomes a function from tables to tables mirroring
its WHERE/SET clauses.  SQLite DATETIME values are carried as the
strings the code stores (format "YYYY-MM-DD HH:MM:SS", whose
lexicographic order agrees with chronological order).  Results of
external subprocesses are passed in as explicit arguments or oracles.
-/

namespace XrayMgr

/-- Characters treated as whitespace by Python str.strip and str.split
(the ASCII subset, which is all the code at hand ever produces). -/
def isPySpace (c : Char) : Bool :=
  c = ' ' || c = '\t' || c = '\n' || c = '\r' || c = '\x0b' || c = '\x0c'

/-- Python str.strip on a character list. -/
def pyStripL (l : List Char) : List Char :=
  ((l.dropWhile isPySpace).reverse.dropWhile isPySpace).reverse

/-- Python str.strip. -/
def pyStrip (s : String) : String :=
  String.mk (pyStripL s.toList)

/-- Python str.lower (ASCII case mapping, as used by the code). -/
def pyLower (s : String) : String :=
  String.mk (s.toList.map Char.toLower)

/-- SQLite TRIM with the default character set (spaces only). -/
def sqlTrim (s : String) : String :=
  String.mk (((s.toList.dropWhile (fun c => c == ' ')).reverse.dropWhile
    (fun c => c == ' ')).reverse)

/-- Python substring containment (the `in` operator): true when `pat`
occurs contiguously inside `hay`. -/
def listContainsSub (pat : List Char) : List Char → Bool
  | [] => pat.isPrefixOf []
  | c :: t => pat.isPrefixOf (c :: t) || listContainsSub pat t

/-- Python `pat in hay` on strings. -/
def pyIn (pat hay : String) : Bool :=
  listContainsSub pat.toList hay.toList

/-- Python str.split()[0]: drop leading whitespace, then take the first
maximal run of non-whitespace characters. -/
def firstToken (l : List Char) : List Char :=
  (l.dropWhile isPySpace).takeWhile (fun c => !(isPySpace c))

/-- Decimal-digit check for `int(...)` parsing. -/
def decDigits (l : List Char) : Bool :=
  !l.isEmpty && l.all (·.isDigit)

/-- Value of a digit list. -/
def natOfDigits (l : List Char) : Nat :=
  l.foldl (fun a c => a * 10 + (c.toNat - 48)) 0

/-- Python int(s) on a stripped string: optional sign followed by
decimal digits (digit-group underscores are not modelled; none of the
inputs at hand contain them).  Failure is the raised ValueError. -/
def pyInt (s : String) : Option Int :=
  match pyStripL s.toList with
  | '+' :: r => if decDigits r then some (Int.ofNat (natOfDigits r)) else none
  | '-' :: r => if decDigits r then some (-(Int.ofNat (natOfDigits r))) else none
  | r => if decDigits r then some (Int.ofNat (natOfDigits r)) else none

/-- The `_one_word` policy of test_batch_10.py: strip; empty becomes
"fail"; newlines become spaces; keep the first whitespace-separated
token; replace spaces by underscores; truncate to 32 characters; empty
result becomes "fail". -/
def oneWord (code : String) : String :=
  let c0 := pyStrip code
  if c0 = "" then "fail"
  else
    let repl := c0.toList.map (fun c => if c = '\n' || c = '\r' then ' ' else c)
    let tok := firstToken (pyStripL repl)
    let tok2 := (tok.map (fun c => if c = ' ' then '_' else c)).take 32
    if tok2.isEmpty then "fail" else String.mk tok2

/-! JSON values as Python's json module produces them.  Numbers are
modelled as integers: every numeric field the identity extractors read
(ports, alter ids) is integral in the data at hand.  A missing dict key
and Python's None are both `Json.null`, exactly as json.loads maps JSON
null to None. -/

/-- A parsed JSON value / Python object. -/
inductive Json where
  | null : Json
  | bool : Bool → Json
  | num : Int → Json
  | str : String → Json
  | arr : List Json → Json
  | obj : List (String × Json) → Json

/-- Python dict.get(k) (None when the key is absent or the value is not
a dict).  Object keys are assumed distinct, as json.loads yields. -/
def jGet (j : Json) (k : String) : Json :=
  match j with
  | .obj kvs => ((kvs.find? (fun kv => kv.1 == k)).map (·.2)).getD .null
  | _ => .null

/-- Python `k in dict`. -/
def jHas (j : Json) (k : String) : Bool :=
  match j with
  | .obj kvs => kvs.any (fun kv => kv.1 == k)
  | _ => false

/-- Python truthiness of a JSON value. -/
def jTruthy : Json → Bool
  | .null => false
  | .bool b => b
  | .num n => n != 0
  | .str s => s != ""
  | .arr xs => !xs.isEmpty
  | .obj kvs => !kvs.isEmpty

/-- Python `a or b`. -/
def pyOr (a b : Json) : Json :=
  if jTruthy a then a else b

/-- Python str() of a value.  Scalar cases are exact; containers render
as a fixed marker, since no extractor path below ever applies str() to
a list or dict (they are guarded by isinstance checks first). -/
def pyStr : Json → String
  | .null => "None"
  | .bool true => "True"
  | .bool false => "False"
  | .num n => toString n
  | .str s => s
  | .arr _ => "<container>"
  | .obj _ => "<container>"

/-- The `_safe_str` helper of hash_updater.py. -/
def safeStr (j : Json) : Option String :=
  match j with
  | .null => none
  | v =>
    let s := pyStrip (pyStr v)
    if s = "" then none else some s

/-- The `_safe_str_allow_empty` helper of hash_updater.py: like
`safeStr` but an empty (stripped) string is kept. -/
def safeStrAllowEmpty (j : Json) : Option String :=
  match j with
  | .null => none
  | v => some (pyStrip (pyStr v))

/-- The `_safe_int` helper of hash_updater.py: int(str(value).strip())
with the exception mapped to None. -/
def safeInt (j : Json) : Option Int :=
  pyInt (pyStr j)

/-- The `_norm_host` helper of hash_updater.py. -/
def normHost (j : Json) : Option String :=
  match safeStr j with
  | some s => some (pyLower s)
  | none => none

/-- Character class accepted as a plain-ASCII cipher name. -/
def cipherSimpleChar (c : Char) : Bool :=
  ('a' ≤ c && c ≤ 'z') || ('A' ≤ c && c ≤ 'Z') || ('0' ≤ c && c ≤ '9') ||
    c == '-' || c == '.' || c == '_' || c == '+'

/-- The `_norm_cipher` helper of hash_updater.py: lowercase when the
name is plain ASCII, otherwise preserved verbatim. -/
def normCipher (j : Json) : Option String :=
  match safeStr j with
  | none => none
  | some s => if s.toList.all cipherSimpleChar then some (pyLower s) else some s

/-! Database rows.  Field defaults mirror the column defaults of
schema.py (config_group_id defaults to the empty string, test_status to
"idle", flags to 0, everything nullable to NULL). -/

/-- One row of the `links` table. -/
structure LinkRow where
  id : Nat
  url : String
  config_json : Option String := none
  config_hash : Option String := none
  is_config_primary : Option Int := none
  test_stage : Int := 0
  is_alive : Int := 0
  ip : Option String := none
  country : Option String := none
  city : Option String := none
  datacenter : Option String := none
  is_in_use : Int := 0
  bound_port : Option Int := none
  last_test_at : Option String := none
  needs_replace : Int := 0
  is_invalid : Int := 0
  config_group_id : Option String := some ""
  is_protocol_unsupported : Int := 0
  parent_id : Option Nat := none
  repaired_url : Option String := none
  outbound_tag : Option String := none
  inbound_tag : Option String := none
  test_status : String := "idle"
  test_started_at : Option String := none
  test_lock_until : Option String := none
  test_lock_owner : Option String := none
  test_batch_id : Option String := none
  last_test_ok : Int := 0
  last_test_error : Option String := none
deriving DecidableEq

/-- One row of the `inbound` (slot) table. -/
structure SlotRow where
  id : Nat
  role : String
  is_active : Int := 0
  port : Int
  tag : String
  link_id : Option Nat := none
  outbound_tag : Option String := none
  status : String := "new"
  last_test_at : Option String := none
deriving DecidableEq

/-- Insertion step of the id-ordered sort that models ORDER BY id ASC. -/
def insertById (r : LinkRow) : List LinkRow → List LinkRow
  | [] => [r]
  | x :: xs => if r.id ≤ x.id then r :: x :: xs else x :: insertById r xs

/-- Sort a list of link rows by id ascending (ORDER BY id ASC). -/
def sortById : List LinkRow → List LinkRow
  | [] => []
  | x :: xs => insertById x (sortById xs)

/-! Definitions from test_batch_10.py. -/

/-- SQL condition `x IS NOT NULL AND TRIM(x) <> ''`. -/
def sqlNonBlank (v : Option String) : Bool :=
  match v with
  | some s => sqlTrim s != ""
  | none => false

/-- WHERE clause of the SELECT in `select_links_for_test`
(test_batch_10.py): primary, never tested (last_test_at IS NULL),
non-blank outbound_tag and config_json, not invalid, not unsupported,
and test_status exactly "idle" or "running" with a NULL or expired
test_lock_until. -/
def eligibleForTest (nowS : String) (r : LinkRow) : Bool :=
  (r.is_config_primary.getD 0 == 1) &&
  r.last_test_at.isNone &&
  sqlNonBlank r.outbound_tag &&
  sqlNonBlank r.config_json &&
  (r.is_invalid == 0) &&
  (r.is_protocol_unsupported == 0) &&
  (r.test_status == "idle" ||
    (r.test_status == "running" &&
      (r.test_lock_until.isNone || decide ((r.test_lock_until.getD "") < nowS))))

/-- The SELECT of `select_links_for_test`: eligible rows, ORDER BY id
ASC, LIMIT `lim`. -/
def selectLinksForTest (links : List LinkRow) (lim : Nat) (nowS : String) :
    List LinkRow :=
  (sortById (links.filter (eligibleForTest nowS))).take lim

/-- WHERE clause of the reserving UPDATE in `select_links_for_test`
(apart from the id IN (...) restriction). -/
def reserveEligible (nowS : String) (r : LinkRow) : Bool :=
  r.last_test_at.isNone &&
  (r.is_config_primary.getD 0 == 1) &&
  (r.test_status == "idle" ||
    (r.test_status == "running" &&
      (r.test_lock_until.isNone || decide ((r.test_lock_until.getD "") < nowS))))

/-- The reserving UPDATE in `select_links_for_test`: stamp the lease
fields on the listed ids that still satisfy the reservation guard. -/
def reserveLinks (links : List LinkRow) (ids : List Nat)
    (nowS lockUntilS owner batchId : String) : List LinkRow :=
  links.map fun r =>
    if ids.contains r.id && reserveEligible nowS r then
      { r with test_status := "running", test_started_at := some nowS,
               test_lock_until := some lockUntilS, test_lock_owner := some owner,
               test_batch_id := some batchId }
    else r

/-- Slot half of `bind_inbound_to_link`. -/
def bindSlotRow (linkId : Nat) (outTag : String) (s : SlotRow) : SlotRow :=
  { s with link_id := some linkId, outbound_tag := some outTag, status := "bound" }

/-- Links half of `bind_inbound_to_link`. -/
def bindLinkRow (inboundTag : String) (port : Int) (r : LinkRow) : LinkRow :=
  { r with inbound_tag := some inboundTag, is_in_use := 1, bound_port := some port }

/-- The two UPDATEs of `bind_inbound_to_link` applied to the tables.
`outTag` is the stripped outbound_tag read from the link row, as the
source computes it. -/
def bindInboundToLink (inboundId : Nat) (inboundTag : String) (port : Int)
    (linkId : Nat) (outTag : String)
    (links : List LinkRow) (slots : List SlotRow) :
    List LinkRow × List SlotRow :=
  (links.map (fun r => if r.id == linkId then bindLinkRow inboundTag port r else r),
   slots.map (fun s => if s.id == inboundId then bindSlotRow linkId outTag s else s))

/-- The UPDATE of `clear_test_inbounds`: free every test slot in the
port range. -/
def clearTestInbounds (ports : List Int) (slots : List SlotRow) : List SlotRow :=
  slots.map fun s =>
    if s.role == "test" && ports.contains s.port then
      { s with link_id := none, outbound_tag := none, is_active := 0, status := "new" }
    else s

/-- The `release_batch_locks` cleanup: reset the lease fields of every
link of the batch, then clear the test slots.  Note that it does not
touch is_in_use, bound_port or inbound_tag on the links. -/
def releaseBatchLocks (batchId : String) (ports : List Int)
    (links : List LinkRow) (slots : List SlotRow) :
    List LinkRow × List SlotRow :=
  (links.map fun r =>
     if r.test_batch_id == some batchId then
       { r with test_status := "idle", test_started_at := none,
                test_lock_until := none, test_lock_owner := none,
                test_batch_id := none }
     else r,
   clearTestInbounds ports slots)

/-- Geolocation values attributed on success (extract_success_metadata
output). -/
structure TestMeta where
  ip : Option String := none
  country : Option String := none
  city : Option String := none
  datacenter : Option String := none
deriving DecidableEq

/-- Python `x or None` on an optional string. -/
def optOrNone (v : Option String) : Option String :=
  match v with
  | some s => if s = "" then none else some s
  | none => none

/-- SQL COALESCE(?, column). -/
def sqlCoalesce (p old : Option String) : Option String :=
  match p with
  | some v => some v
  | none => old

/-- The links UPDATE of `finalize_db_after_test`: store the outcome,
return the record to idle, clear the lease and the binding, and (on
success only, and only for columns present) overwrite the geolocation
via COALESCE. -/
def finalizeLinkRow (linksCols : List String) (ok : Bool) (errCode : String)
    (nowS : String) (meta : Option TestMeta) (r : LinkRow) : LinkRow :=
  let okI : Int := if ok then 1 else 0
  let lastErr : Option String := if ok then none else some (oneWord errCode)
  let ipP : Option String :=
    if ok then (match meta with | some m => optOrNone m.ip | none => none) else none
  let countryP : Option String :=
    if ok then (match meta with | some m => optOrNone m.country | none => none) else none
  let cityP : Option String :=
    if ok then (match meta with | some m => optOrNone m.city | none => none) else none
  let dcP : Option String :=
    if ok then (match meta with | some m => optOrNone m.datacenter | none => none) else none
  let base := { r with
    last_test_at := some nowS, last_test_ok := okI, last_test_error := lastErr,
    is_alive := okI, test_status := "idle", test_started_at := none,
    test_lock_until := none, test_lock_owner := none, test_batch_id := none,
    inbound_tag := none, is_in_use := 0, bound_port := none }
  let base := if ok && linksCols.contains "ip" then
    { base with ip := sqlCoalesce ipP r.ip } else base
  let base := if ok && linksCols.contains "country" then
    { base with country := sqlCoalesce countryP r.country } else base
  let base := if ok && linksCols.contains "city" then
    { base with city := sqlCoalesce cityP r.city } else base
  let base := if ok && linksCols.contains "datacenter" then
    { base with datacenter := sqlCoalesce dcP r.datacenter } else base
  base

/-- The inbound UPDATE of `finalize_db_after_test`. -/
def finalizeSlotRow (nowS : String) (s : SlotRow) : SlotRow :=
  { s with last_test_at := some nowS, link_id := none, outbound_tag := none,
           is_active := 0, status := "idle" }

/-- Whole-table effect of `finalize_db_after_test`. -/
def finalizeDbAfterTest (linksCols : List String) (ok : Bool) (errCode : String)
    (nowS : String) (meta : Option TestMeta) (inboundId linkId : Nat)
    (links : List LinkRow) (slots : List SlotRow) :
    List LinkRow × List SlotRow :=
  (links.map (fun r => if r.id == linkId then
     finalizeLinkRow linksCols ok errCode nowS meta r else r),
   slots.map (fun s => if s.id == inboundId then finalizeSlotRow nowS s else s))

/-- The `error_code_from_text` classifier of test_batch_10.py. -/
def errorCodeFromText (s : String) : String :=
  let t := pyLower (pyStrip s)
  if pyIn "xray_add_outbound_failed" t || pyIn "failed to build" t || pyIn "xray" t then
    "xray"
  else if pyIn "outbound_config_parse_failed" t || pyIn "config_parse" t || pyIn "json" t then
    "parse"
  else if pyIn "slot_replacement_exhausted" t || pyIn "exhaust" t then
    "exhaust"
  else "fail"

/-- Error text built by main() when a preflight `add_outbound` fails
(the f-string at the failure site). -/
def preflightAddOutboundErrText (linkId : Nat) (tag : String) (rc : Int)
    (stderr : String) : String :=
  "xray_add_outbound_failed link_id=" ++ toString linkId ++ " tag=" ++ tag ++
    " rc=" ++ toString rc ++ " stderr=" ++ stderr

/-- The `mark_link_failed_and_free_inbound` transaction: classify the
error text and finalize the record as a failed test, freeing the slot. -/
def markLinkFailedAndFreeInbound (linksCols : List String)
    (inboundId linkId : Nat) (errText nowS : String)
    (links : List LinkRow) (slots : List SlotRow) :
    List LinkRow × List SlotRow :=
  finalizeDbAfterTest linksCols false (errorCodeFromText errText) nowS none
    inboundId linkId links slots

/-- The code component of `error_code_from_check_result` (the
human-readable detail component is not modelled; no claim concerns it). -/
def errorCodeFromCheckResult (res : Json) : String :=
  let et := pyStrip (pyStr (pyOr (jGet res "error_type") (Json.str "")))
  let code :=
    if et == "check_host_subprocess_timeout" then "timeout"
    else if et == "check_host_exit_nonzero" then "check"
    else if et == "json_parse_failed" then "badjson"
    else if et == "empty_output" then "empty"
    else if et != "" then et
    else "fail"
  oneWord code

/-- `XrayCli.probe_api_server`: try each candidate in order and return
the first whose `lso` call succeeds with parseable JSON stdout
(`responds` is the oracle for that outcome); with no responsive
candidate the code evaluates candidates[0], which raises IndexError on
an empty list — modelled as `none`. -/
def probeApiServer (responds : String → Bool) (candidates : List String) :
    Option String :=
  match candidates.find? responds with
  | some s => some s
  | none => candidates.head?

/-! Definitions from importer.py. -/

/-- The character class of the scheme regex
`^([a-zA-Z0-9+.\-]+)://` in `_detect_protocol`. -/
def schemeChar (c : Char) : Bool :=
  c.isAlpha || c.isDigit || c == '+' || c == '.' || c == '-'

/-- The `_detect_protocol` helper: leading run of scheme characters
followed by "://", stripped and lowercased.  The class excludes ':' and
'/', so the greedy run is the unique candidate match. -/
def detectProtocol (url : String) : Option String :=
  if url = "" then none
  else
    let s := pyStripL url.toList
    let pfx := s.takeWhile schemeChar
    if pfx.isEmpty then none
    else if "://".toList.isPrefixOf (s.drop pfx.length) then
      let p := pyLower (pyStrip (String.mk pfx))
      if p = "" then none else some p
    else none

/-- The `_SUPPORTED_PROTOCOLS` set of importer.py. -/
def supportedProtocols : List String := ["vmess", "vless", "ss", "trojan"]

/-- Per-row decision of `_mark_unsupported_protocols`: a detectable
scheme outside the supported set. -/
def shouldMarkUnsupported (url : String) : Bool :=
  match detectProtocol url with
  | some p => p != "" && !(supportedProtocols.contains p)
  | none => false

/-- WHERE clause of the unsupported-protocol scan (the schema columns
is_invalid / is_protocol_unsupported exist, as `_ensure_links_columns`
guarantees). -/
def unsupportedScanEligible (r : LinkRow) : Bool :=
  sqlTrim r.url != "" && r.is_protocol_unsupported == 0 && r.is_invalid == 0

/-- Net effect of the `_mark_unsupported_protocols` pass on the table:
every scanned row whose scheme is outside the supported set gets
is_protocol_unsupported=1 (and is_invalid reset to 0). -/
def markUnsupportedPass (links : List LinkRow) : List LinkRow :=
  links.map fun r =>
    if unsupportedScanEligible r && shouldMarkUnsupported r.url then
      { r with is_protocol_unsupported := 1, is_invalid := 0 }
    else r

/-- Alternatives of the `_PROTO_RE` splitter regex, in source order
(the order the regex engine tries them at each position). -/
def protoAlts : List String :=
  ["vmess", "vless", "trojan", "ssr", "ss", "shadowsocks2022", "shadowsocks",
   "hysteria2", "hysteria", "hy2", "tuic"]

/-- Match attempt of `_PROTO_RE` at the head of `l` (IGNORECASE):
length of the first alternative that, followed by "://", prefixes the
text. -/
def protoMatchLen (l : List Char) : Option Nat :=
  (protoAlts.find? (fun a =>
    (a ++ "://").toList.isPrefixOf (l.map Char.toLower))).map
    (fun a => a.length + 3)

/-- Fuel-driven scanner core for `_PROTO_RE` finditer (every step
consumes at least one character, so `fuel = length` is enough). -/
def protoScan : Nat → List Char → Nat → List (Nat × Nat)
  | 0, _, _ => []
  | _ + 1, [], _ => []
  | fuel + 1, c :: rest, i =>
    match protoMatchLen (c :: rest) with
    | some n => (i, n) :: protoScan fuel (rest.drop (n - 1)) (i + n)
    | none => protoScan fuel rest (i + 1)

/-- re.finditer over `_PROTO_RE`: scan left to right, record
(start, length) of each non-overlapping match. -/
def protoMatchStarts (l : List Char) (i : Nat) : List (Nat × Nat) :=
  protoScan l.length l i

/-- The `_split_multi_config_url` helper: with fewer than two scheme
matches return the stripped URI whole; otherwise cut at each match
start, strip each segment, and drop empty segments. -/
def splitMultiConfigUrl (url : String) : List String :=
  if url = "" then []
  else
    let s := pyStripL url.toList
    if s.isEmpty then []
    else
      let ms := protoMatchStarts s 0
      if ms.length ≤ 1 then [String.mk s]
      else
        let starts := ms.map (·.1)
        let bounds := starts.zip (starts.drop 1 ++ [s.length])
        (bounds.map (fun se => pyStripL ((s.drop se.1).take (se.2 - se.1)))).filterMap
          (fun seg => if seg.isEmpty then none else some (String.mk seg))

/-- WHERE clause of the `_normalize_links` scan: config_hash NULL or
empty, non-blank url, not invalid, not unsupported. -/
def normalizeScanEligible (r : LinkRow) : Bool :=
  (r.config_hash == none || r.config_hash == some "") &&
  sqlTrim r.url != "" &&
  r.is_invalid == 0 &&
  r.is_protocol_unsupported == 0

/-- A freshly inserted links row: only url set, every other column at
its schema default. -/
def newLinkRow (id : Nat) (url : String) : LinkRow :=
  { id := id, url := url }

/-- Largest id present (AUTOINCREMENT high-water mark of the model). -/
def maxId (t : List LinkRow) : Nat :=
  t.foldl (fun a r => max a r.id) 0

/-- INSERT OR IGNORE INTO links (url) VALUES (?): a duplicate url is
ignored, otherwise a fresh row is appended with the next id. -/
def insertOrIgnoreUrl (t : List LinkRow) (url : String) : List LinkRow :=
  if t.any (fun r => r.url == url) then t else t ++ [newLinkRow (maxId t + 1) url]

/-- UPDATE links SET is_invalid = 1 WHERE id = ?. -/
def markInvalidById (rid : Nat) (t : List LinkRow) : List LinkRow :=
  t.map fun r => if r.id == rid then { r with is_invalid := 1 } else r

/-- Body of the `_normalize_links` loop for one fetched row: skip
single-scheme urls, otherwise insert-or-ignore every segment and mark
the original invalid. -/
def normalizeRowStep (t : List LinkRow) (row : LinkRow) : List LinkRow :=
  let parts := splitMultiConfigUrl row.url
  if parts.length ≤ 1 then t
  else markInvalidById row.id (parts.foldl insertOrIgnoreUrl t)

/-- One fetch-iteration of `_normalize_links` with an unbounded batch:
process the scan-eligible rows of the snapshot in id order.  The claims
at hand concern tables a single fetch covers. -/
def normalizeLinksPass (t : List LinkRow) : List LinkRow :=
  (sortById (t.filter normalizeScanEligible)).foldl normalizeRowStep t

/-! Definitions from group_updater.py.  The column names there are
config_hash (the fingerprint), config_group_id and is_config_primary. -/

/-- Rows of one fingerprint (SQL `config_hash = ?`; a NULL hash never
matches). -/
def hashRows (h : String) (t : List LinkRow) : List LinkRow :=
  t.filter (fun r => r.config_hash == some h)

/-- SELECT MIN(id) FROM links WHERE config_hash = ?
(`_select_min_id_for_hash`); NULL when the fingerprint has no rows. -/
def minIdForHash (h : String) (t : List LinkRow) : Option Nat :=
  match (hashRows h t).map (·.id) with
  | [] => none
  | x :: xs => some (xs.foldl Nat.min x)

/-- The `_find_existing_group_id_for_hash` query: among rows of the
fingerprint with a non-NULL non-empty group id, take the one with the
smallest id; strip its group id, empty becoming None. -/
def findExistingGroupIdForHash (h : String) (t : List LinkRow) : Option String :=
  match sortById (t.filter (fun r =>
      r.config_hash == some h &&
      (match r.config_group_id with | some g => g != "" | none => false))) with
  | [] => none
  | r :: _ =>
    match r.config_group_id with
    | none => none
    | some gid =>
      let g := pyStrip gid
      if g = "" then none else some g

/-- The `_fill_missing_group_id_only` UPDATE: set the group id on rows
of the fingerprint whose group id is NULL or empty. -/
def fillMissingGroupIdOnly (h gid : String) (t : List LinkRow) : List LinkRow :=
  t.map fun r =>
    if r.config_hash == some h &&
        (r.config_group_id == none || r.config_group_id == some "") then
      { r with config_group_id := some gid }
    else r

/-- Result shape of `_get_primary_state`. -/
structure PrimaryState where
  min_id : Option Nat
  primary_count : Option Nat
  primary_min_id : Option Nat
deriving DecidableEq

/-- The `_get_primary_state` query: with no row of the fingerprint all
three are None; otherwise overall min id, count of primary rows
(COALESCE(is_config_primary,0)=1), and min id among primary rows. -/
def getPrimaryState (h : String) (t : List LinkRow) : PrimaryState :=
  if (hashRows h t).isEmpty then ⟨none, none, none⟩
  else
    let prim := (hashRows h t).filter (fun r => r.is_config_primary.getD 0 == 1)
    { min_id := minIdForHash h t,
      primary_count := some prim.length,
      primary_min_id :=
        match prim.map (·.id) with
        | [] => none
        | x :: xs => some (xs.foldl Nat.min x) }

/-- The `_enforce_primary_min_id` UPDATE: on every row of the
fingerprint set is_config_primary to 1 exactly for the given id. -/
def enforcePrimaryMinId (h : String) (minId : Nat) (t : List LinkRow) :
    List LinkRow :=
  t.map fun r =>
    if r.config_hash == some h then
      { r with is_config_primary := some (if r.id == minId then 1 else 0) }
    else r

/-- The `_process_hash_grouping` step: fill missing group ids with the
existing group id or the textual min id, then enforce the min-id
primary unless it is already correct. -/
def processHashGrouping (h : String) (t : List LinkRow) : List LinkRow :=
  match minIdForHash h t with
  | none => t
  | some mid =>
    let gid := (findExistingGroupIdForHash h t).getD (toString mid)
    let t1 := fillMissingGroupIdOnly h gid t
    let st := getPrimaryState h t1
    match st.min_id with
    | none => t1
    | some m =>
      if st.primary_count == some 1 && st.primary_min_id == st.min_id then t1
      else enforcePrimaryMinId h m t1

/-! Definitions from hash_updater.py: the canonical-JSON serialization
of json.dumps(obj, sort_keys=True, separators=(",", ":"),
ensure_ascii=False), SHA-256, and the identity extractors. -/

/-- Lowercase hex digit. -/
def hexDigit (n : Nat) : Char :=
  if n < 10 then Char.ofNat (48 + n) else Char.ofNat (87 + n)

/-- Four lowercase hex digits (the \uXXXX escape body). -/
def hex4 (n : Nat) : List Char :=
  [hexDigit (n / 4096 % 16), hexDigit (n / 256 % 16),
   hexDigit (n / 16 % 16), hexDigit (n % 16)]

/-- json.dumps escaping of one character with ensure_ascii=False:
backslash, quote and control characters are escaped, everything else
is emitted verbatim. -/
def jsonEscapeChar (c : Char) : List Char :=
  if c = '"' then ['\\', '"']
  else if c = '\\' then ['\\', '\\']
  else if c = '\n' then ['\\', 'n']
  else if c = '\r' then ['\\', 'r']
  else if c = '\t' then ['\\', 't']
  else if c = '\x08' then ['\\', 'b']
  else if c = '\x0c' then ['\\', 'f']
  else if c.toNat < 32 then '\\' :: 'u' :: hex4 c.toNat
  else [c]

/-- json.dumps rendering of a string literal. -/
def jsonQuote (s : String) : String :=
  "\"" ++ String.mk (s.toList.flatMap jsonEscapeChar) ++ "\""

/-- Insertion step for sorting object keys (Python sorted on str). -/
def insertByKey (kv : String × Json) :
    List (String × Json) → List (String × Json)
  | [] => [kv]
  | x :: xs => if kv.1 ≤ x.1 then kv :: x :: xs else x :: insertByKey kv xs

/-- Sort an object's entries by key ascending (sort_keys=True). -/
def insSortByKey : List (String × Json) → List (String × Json)
  | [] => []
  | x :: xs => insertByKey x (insSortByKey xs)

mutual

/-- Recursive key-sorting pass of json.dumps with sort_keys=True. -/
def jsonSortKeys : Json → Json
  | .null => .null
  | .bool b => .bool b
  | .num n => .num n
  | .str s => .str s
  | .arr xs => .arr (jsonSortKeysList xs)
  | .obj kvs => .obj (insSortByKey (jsonSortKeysObj kvs))

/-- Key-sorting pass on array elements. -/
def jsonSortKeysList : List Json → List Json
  | [] => []
  | x :: xs => jsonSortKeys x :: jsonSortKeysList xs

/-- Key-sorting pass on object values. -/
def jsonSortKeysObj : List (String × Json) → List (String × Json)
  | [] => []
  | kv :: kvs => (kv.1, jsonSortKeys kv.2) :: jsonSortKeysObj kvs

end

mutual

/-- Serialization of json.dumps with separators=(",", ":") and
ensure_ascii=False (keys assumed already sorted by `jsonSortKeys`). -/
def serJson : Json → String
  | .null => "null"
  | .bool true => "true"
  | .bool false => "false"
  | .num n => toString n
  | .str s => jsonQuote s
  | .arr xs => "[" ++ serArr xs ++ "]"
  | .obj kvs => "\x7b" ++ serObj kvs ++ "\x7d"

/-- Comma-joined array elements. -/
def serArr : List Json → String
  | [] => ""
  | [x] => serJson x
  | x :: y :: xs => serJson x ++ "," ++ serArr (y :: xs)

/-- Comma-joined key:value pairs. -/
def serObj : List (String × Json) → String
  | [] => ""
  | [kv] => jsonQuote kv.1 ++ ":" ++ serJson kv.2
  | kv :: kv2 :: kvs => jsonQuote kv.1 ++ ":" ++ serJson kv.2 ++ "," ++ serObj (kv2 :: kvs)

end

/-- The `_canonical_json_str` helper: canonical dump with sorted keys,
minimal separators, raw UTF-8. -/
def canonicalJsonStr (obj : Json) : String :=
  serJson (jsonSortKeys obj)

/-! SHA-256 over byte lists (hashlib.sha256 of the UTF-8 encoding). -/

/-- UTF-8 encoding of one code point. -/
def utf8EncodeChar (c : Char) : List Nat :=
  let n := c.toNat
  if n < 128 then [n]
  else if n < 2048 then [192 + n / 64, 128 + n % 64]
  else if n < 65536 then [224 + n / 4096, 128 + (n / 64) % 64, 128 + n % 64]
  else [240 + n / 262144, 128 + (n / 4096) % 64, 128 + (n / 64) % 64, 128 + n % 64]

/-- UTF-8 bytes of a string (str.encode("utf-8")). -/
def utf8Bytes (s : String) : List Nat :=
  s.toList.flatMap utf8EncodeChar

/-- Truncation to a 32-bit word. -/
def w32 (n : Nat) : Nat := n % 4294967296

/-- Right rotation of a 32-bit word by `b` bits. -/
def rotr32 (b n : Nat) : Nat := w32 ((n >>> b) ||| (n <<< (32 - b)))

/-- Big-endian 8-byte encoding of the bit length. -/
def be64 (n : Nat) : List Nat :=
  [n >>> 56 % 256, n >>> 48 % 256, n >>> 40 % 256, n >>> 32 % 256,
   n >>> 24 % 256, n >>> 16 % 256, n >>> 8 % 256, n % 256]

/-- SHA-256 message padding. -/
def sha256Pad (msg : List Nat) : List Nat :=
  let padZeros := (64 + 56 - (msg.length + 1) % 64) % 64
  msg ++ [128] ++ List.replicate padZeros 0 ++ be64 (8 * msg.length)

/-- Big-endian 32-bit words from bytes. -/
def bytesToWords : List Nat → List Nat
  | a :: b :: c :: d :: rest =>
    (((a * 256 + b) * 256 + c) * 256 + d) :: bytesToWords rest
  | _ => []

/-- Split a word list into 16-word blocks. -/
def chunks16 : List Nat → List (List Nat)
  | [] => []
  | w :: ws => ((w :: ws).take 16) :: chunks16 ((w :: ws).drop 16)
termination_by l => l.length
decreasing_by
  simp only [List.length_cons, List.length_drop]
  omega

/-- SHA-256 round constants. -/
def sha256K : List Nat :=
  [1116352408, 1899447441, 3049323471, 3921009573, 961987163, 1508970993,
   2453635748, 2870763221, 3624381080, 310598401, 607225278, 1426881987,
   1925078388, 2162078206, 2614888103, 3248222580, 3835390401, 4022224774,
   264347078, 604807628, 770255983, 1249150122, 1555081692, 1996064986,
   2554220882, 2821834349, 2952996808, 3210313671, 3336571891, 3584528711,
   113926993, 338241895, 666307205, 773529912, 1294757372, 1396182291,
   1695183700, 1986661051, 2177026350, 2456956037, 2730485921, 2820302411,
   3259730800, 3345764771, 3516065817, 3600352804, 4094571909, 275423344,
   430227734, 506948616, 659060556, 883997877, 958139571, 1322822218,
   1537002063, 1747873779, 1955562222, 2024104815, 2227730452, 2361852424,
   2428436474, 2756734187, 3204031479, 3329325298]

/-- SHA-256 initial hash state. -/
def sha256H0 : List Nat :=
  [1779033703, 3144134277, 1013904242, 2773480762,
   1359893119, 2600822924, 528734635, 1541459225]

/-- Message-schedule extension: append `k` further words. -/
def sha256Extend (w : List Nat) : Nat → List Nat
  | 0 => w
  | k + 1 =>
    let n := w.length
    let x15 := w.getD (n - 15) 0
    let x2 := w.getD (n - 2) 0
    let s0 := w32 (rotr32 7 x15 ^^^ rotr32 18 x15 ^^^ (x15 >>> 3))
    let s1 := w32 (rotr32 17 x2 ^^^ rotr32 19 x2 ^^^ (x2 >>> 10))
    sha256Extend (w ++ [w32 (s1 + w.getD (n - 7) 0 + s0 + w.getD (n - 16) 0)]) k

/-- One compression round on the 8-word working state. -/
def sha256Round (st : List Nat) (kw : Nat × Nat) : List Nat :=
  match st with
  | [a, b, c, d, e, f, g, hh] =>
    let s1 := w32 (rotr32 6 e ^^^ rotr32 11 e ^^^ rotr32 25 e)
    let ch := w32 ((e &&& f) ^^^ ((e ^^^ 4294967295) &&& g))
    let t1 := w32 (hh + s1 + ch + kw.1 + kw.2)
    let s0 := w32 (rotr32 2 a ^^^ rotr32 13 a ^^^ rotr32 22 a)
    let mj := w32 ((a &&& b) ^^^ (a &&& c) ^^^ (b &&& c))
    let t2 := w32 (s0 + mj)
    [w32 (t1 + t2), a, b, c, w32 (d + t1), e, f, g]
  | _ => st

/-- Process one 16-word block. -/
def sha256Block (h : List Nat) (w16 : List Nat) : List Nat :=
  let w := sha256Extend w16 48
  let st := (sha256K.zip w).foldl sha256Round h
  (h.zip st).map (fun p => w32 (p.1 + p.2))

/-- SHA-256 digest bytes of a byte list. -/
def sha256DigestBytes (msg : List Nat) : List Nat :=
  let blocks := chunks16 (bytesToWords (sha256Pad msg))
  let h := blocks.foldl sha256Block sha256H0
  h.flatMap (fun x => [x >>> 24 % 256, x >>> 16 % 256, x >>> 8 % 256, x % 256])

/-- Hex rendering of one byte. -/
def byteHex (b : Nat) : List Char :=
  [hexDigit (b / 16), hexDigit (b % 16)]

/-- The `_sha256_hex` helper: lowercase hex digest of the UTF-8 bytes. -/
def sha256Hex (s : String) : String :=
  String.mk ((sha256DigestBytes (utf8Bytes s)).flatMap byteHex)

/-- Fingerprint of an identity dictionary, exactly as `update_hashes`
computes it: canonical dump, then SHA-256 hex. -/
def fingerprintOfIdentity (ident : List (String × Json)) : String :=
  sha256Hex (canonicalJsonStr (Json.obj ident))

/-- Python `x is None` on a value (json null and Python None coincide). -/
def jIsNone : Json → Bool
  | .null => true
  | _ => false

/-- Python dict.update on identity dictionaries: existing keys keep
their position with the new value, new keys are appended. -/
def dictUpdate (base upd : List (String × Json)) : List (String × Json) :=
  base.map (fun kv =>
    match upd.find? (fun kv2 => kv2.1 == kv.1) with
    | some kv2 => kv2
    | none => kv) ++
  upd.filter (fun kv2 => !(base.any (fun kv => kv.1 == kv2.1)))

/-- The `_get_stream` helper: streamSettings when it is a dict, else an
empty dict. -/
def getStream (outbound : Json) : Json :=
  match pyOr (jGet outbound "streamSettings") (Json.obj []) with
  | Json.obj kvs => Json.obj kvs
  | _ => Json.obj []

/-- One optional entry of the stream-fingerprint dict (the conditional
`out[key] = value` assignments of the source). -/
def optEntry (k : String) (v : Option Json) : List (String × Json) :=
  match v with
  | some j => [(k, j)]
  | none => []

/-- The `_norm_host` helper applied to an optional Python string. -/
def normHostS (v : Option String) : Option String :=
  match v with
  | some s => normHost (Json.str s)
  | none => none

/-- The `_extract_stream_fingerprint` helper: network, tls flag and
variant, sni, and ws/http host header and path. -/
def extractStreamFingerprint (stream : Json) : List (String × Json) :=
  let network := pyOr (jGet stream "network") (Json.str "tcp")
  let security_layer := jGet stream "security"
  let tls_settings :=
    match pyOr (jGet stream "tlsSettings") (Json.obj []) with
    | Json.obj kvs => Json.obj kvs
    | _ => Json.obj []
  let reality_settings :=
    match pyOr (jGet stream "realitySettings") (Json.obj []) with
    | Json.obj kvs => Json.obj kvs
    | _ => Json.obj []
  let network_norm := (normHost network).getD "tcp"
  let out0 : List (String × Json) := [("network", Json.str network_norm)]
  let tls_server_name := pyOr (jGet tls_settings "serverName") (jGet tls_settings "sni")
  let reality_server_name := jGet reality_settings "serverName"
  let secCase : Bool × Option String :=
    match security_layer with
    | Json.str s =>
      let sec_lc := pyLower (pyStrip s)
      if sec_lc != "" && sec_lc != "none" && sec_lc != "plaintext" then
        (true, some sec_lc)
      else (false, none)
    | _ => (false, none)
  let tlsPair : Bool × Option String :=
    if secCase.1 then secCase
    else if jTruthy tls_settings then (true, some (secCase.2.getD "tls"))
    else if jTruthy reality_settings then (true, some (secCase.2.getD "reality"))
    else secCase
  let out1 := out0 ++ [("tls", Json.bool tlsPair.1)]
  let out2 := out1 ++ optEntry "tls_type"
    (match tlsPair.2 with
     | some t => if t != "" then some (Json.str (pyLower (pyStrip t))) else none
     | none => none)
  let sni_norm := normHost (pyOr tls_server_name reality_server_name)
  let out3 := out2 ++ optEntry "sni"
    (match sni_norm with
     | some s => if s != "" then some (Json.str s) else none
     | none => none)
  let netIn := network_norm == "ws" || network_norm == "http" ||
    network_norm == "h2" || network_norm == "h3"
  let pathHost : Option String × Option String :=
    if netIn then
      let ws := pyOr (jGet stream "wsSettings") (pyOr (jGet stream "httpSettings") (Json.obj []))
      match ws with
      | Json.obj _ =>
        let p :=
          match jGet ws "path" with
          | Json.str ps => if pyStrip ps != "" then some ps else none
          | _ => none
        let headers := pyOr (jGet ws "headers") (Json.obj [])
        let hh :=
          match headers with
          | Json.obj _ =>
            (match pyOr (jGet headers "Host") (jGet headers "host") with
             | Json.str hs => if pyStrip hs != "" then some (pyStrip hs) else none
             | _ => none)
          | _ => none
        (p, hh)
      | _ => (none, none)
    else (none, none)
  let host_norm := normHostS pathHost.2
  let out4 := out3 ++ optEntry "host"
    (match host_norm with
     | some s => if s != "" then some (Json.str s) else none
     | none => none)
  let out5 := out4 ++ optEntry "path"
    (match pathHost.1 with
     | some p => if pyStrip p != "" then some (Json.str (pyStrip p)) else none
     | none => none)
  out5

/-- Local variables of `_extract_shadowsocks_identity` after all the
picks and fallbacks (Json.null plays Python None). -/
structure SsPick where
  address : Json := Json.null
  port : Json := Json.null
  method : Json := Json.null
  password : Json := Json.null
  uot : Json := Json.null
  plugin : Json := Json.null
  plugin_opts : Json := Json.null

/-- The inner `pick_from_server_dict` closure applied to one server
dict. -/
def pickFromServerDict (srv : Json) (st : SsPick) : SsPick :=
  let address :=
    if jIsNone st.address then
      pyOr (jGet srv "address") (pyOr (jGet srv "server") (jGet srv "addr"))
    else st.address
  let port :=
    if jIsNone st.port then pyOr (jGet srv "port") (jGet srv "server_port")
    else st.port
  let method0 :=
    if jIsNone st.method then pyOr (jGet srv "method") (jGet srv "cipher")
    else st.method
  let password0 :=
    if jIsNone st.password then
      (if jHas srv "password" then jGet srv "password"
       else if jHas srv "pass" then jGet srv "pass"
       else if jHas srv "passwd" then jGet srv "passwd"
       else Json.null)
    else st.password
  let mp : Json × Json :=
    match jGet srv "users" with
    | Json.arr (u0 :: _) =>
      (match u0 with
       | Json.obj _ =>
         let m2 :=
           if jIsNone method0 then
             pyOr (jGet u0 "method") (pyOr (jGet u0 "cipher") method0)
           else method0
         let p2 :=
           if jIsNone password0 then
             (if jHas u0 "password" then jGet u0 "password"
              else if jHas u0 "pass" then jGet u0 "pass"
              else if jHas u0 "passwd" then jGet u0 "passwd"
              else Json.null)
           else password0
         (m2, p2)
       | _ => (method0, password0))
    | _ => (method0, password0)
  let uot :=
    if jIsNone st.uot && jHas srv "uot" then jGet srv "uot" else st.uot
  let plugin :=
    if jIsNone st.plugin && jHas srv "plugin" then jGet srv "plugin" else st.plugin
  let plugin_opts :=
    if jIsNone st.plugin_opts &&
        (jHas srv "pluginOpts" || jHas srv "plugin_opts" || jHas srv "plugin-opts") then
      pyOr (jGet srv "pluginOpts") (pyOr (jGet srv "plugin_opts") (jGet srv "plugin-opts"))
    else st.plugin_opts
  { address := address, port := port, method := mp.1, password := mp.2,
    uot := uot, plugin := plugin, plugin_opts := plugin_opts }

/-- The settings dict of an outbound (dict check included). -/
def ssSettings (outbound : Json) : Json :=
  match pyOr (jGet outbound "settings") (Json.obj []) with
  | Json.obj kvs => Json.obj kvs
  | _ => Json.obj []

/-- State of `_extract_shadowsocks_identity` after the servers[0] pick,
the settings fallbacks, and the empty-password default. -/
def ssPicked (outbound : Json) : SsPick :=
  let settings := ssSettings outbound
  let st0 : SsPick := {}
  let st1 :=
    match jGet settings "servers" with
    | Json.arr (s0 :: _) =>
      (match s0 with
       | Json.obj _ => pickFromServerDict s0 st0
       | _ => st0)
    | _ => st0
  let address :=
    if jIsNone st1.address then
      pyOr (jGet settings "address") (pyOr (jGet settings "server") (jGet settings "addr"))
    else st1.address
  let port :=
    if jIsNone st1.port then pyOr (jGet settings "port") (jGet settings "server_port")
    else st1.port
  let method :=
    if jIsNone st1.method then pyOr (jGet settings "method") (jGet settings "cipher")
    else st1.method
  let password := if jIsNone st1.password then Json.str "" else st1.password
  let uot :=
    if jIsNone st1.uot && jHas settings "uot" then jGet settings "uot" else st1.uot
  let plugin :=
    if jIsNone st1.plugin && jHas settings "plugin" then jGet settings "plugin"
    else st1.plugin
  let plugin_opts :=
    if jIsNone st1.plugin_opts &&
        (jHas settings "pluginOpts" || jHas settings "plugin_opts" ||
          jHas settings "plugin-opts") then
      pyOr (jGet settings "pluginOpts")
        (pyOr (jGet settings "plugin_opts") (jGet settings "plugin-opts"))
    else st1.plugin_opts
  { address := address, port := port, method := method, password := password,
    uot := uot, plugin := plugin, plugin_opts := plugin_opts }

/-- The `_extract_shadowsocks_identity` extractor.  The plugin_opts
round-trip json.loads(json.dumps(x)) is the identity on parsed JSON
values and is modelled as such. -/
def extractShadowsocksIdentity (outbound : Json) : Option (List (String × Json)) :=
  match outbound with
  | Json.obj _ =>
    let st := ssPicked outbound
    let address_norm := normHost st.address
    let port_int := safeInt st.port
    let method_norm := normCipher st.method
    let password_norm := safeStrAllowEmpty st.password
    match address_norm, port_int, method_norm, password_norm with
    | some a, some p, some m, some pw =>
      if a == "" || m == "" then none
      else
        let ident0 : List (String × Json) :=
          [("protocol", Json.str "shadowsocks"), ("address", Json.str a),
           ("port", Json.num p), ("method", Json.str m), ("password", Json.str pw)]
        let ident1 := ident0 ++
          (match st.uot with | Json.bool b => [("uot", Json.bool b)] | _ => [])
        let ident2 := ident1 ++
          (match safeStr st.plugin with
           | some pl => [("plugin", Json.str pl)]
           | none => [])
        let ident3 := ident2 ++
          (if jIsNone st.plugin_opts then []
           else match st.plugin_opts with
           | Json.obj kvs => [("plugin_opts", Json.obj kvs)]
           | Json.arr xs => [("plugin_opts", Json.arr xs)]
           | v => [("plugin_opts", Json.str (pyStr v))])
        some (dictUpdate ident3 (extractStreamFingerprint (getStream outbound)))
    | _, _, _, _ => none
  | _ => none

/-! Helper lemmas. -/

/-- Membership in an id-ordered insertion. -/
theorem mem_insertById {r x : LinkRow} {l : List LinkRow} :
    x ∈ insertById r l ↔ x = r ∨ x ∈ l := by
  induction l with
  | nil => simp [insertById]
  | cons a t ih =>
    by_cases h : r.id ≤ a.id
    · simp [insertById, h]
    · simp [insertById, h, ih]
      tauto

/-- Membership is preserved by the id sort. -/
theorem mem_sortById {x : LinkRow} {l : List LinkRow} : x ∈ sortById l ↔ x ∈ l := by
  induction l with
  | nil => simp [sortById]
  | cons a t ih => simp [sortById, mem_insertById, ih]

/-- Insertion preserves id-sortedness. -/
theorem sorted_insertById {r : LinkRow} {l : List LinkRow}
    (h : l.Pairwise (fun a b => a.id ≤ b.id)) :
    (insertById r l).Pairwise (fun a b => a.id ≤ b.id) := by
  induction l with
  | nil => simp [insertById]
  | cons a t ih =>
    rcases List.pairwise_cons.mp h with ⟨ha, ht⟩
    by_cases hle : r.id ≤ a.id
    · rw [insertById, if_pos hle, List.pairwise_cons]
      refine ⟨?_, h⟩
      intro x hx
      rcases List.mem_cons.mp hx with rfl | hx
      · exact hle
      · exact le_trans hle (ha x hx)
    · rw [insertById, if_neg hle, List.pairwise_cons]
      refine ⟨?_, ih ht⟩
      intro x hx
      rcases mem_insertById.mp hx with rfl | hx
      · exact le_of_not_le hle
      · exact ha x hx

/-- The id sort sorts. -/
theorem sorted_sortById (l : List LinkRow) :
    (sortById l).Pairwise (fun a b => a.id ≤ b.id) := by
  induction l with
  | nil => simp [sortById]
  | cons a t ih => exact sorted_insertById ih

/-- A prefix occurrence is an occurrence. -/
theorem listContainsSub_of_prefix {pat l : List Char}
    (h : pat.isPrefixOf l = true) : listContainsSub pat l = true := by
  cases l with
  | nil => simpa [listContainsSub] using h
  | cons c t => simp [listContainsSub, h]

/-- Python strip keeps any block that starts and ends with a
non-whitespace character as a prefix of the result. -/
theorem prefix_pyStripL_append (b0 : Char) (bm : List Char) (bl : Char)
    (s : List Char) (h0 : isPySpace b0 = false) (hl : isPySpace bl = false) :
    (b0 :: (bm ++ [bl])) <+: pyStripL ((b0 :: (bm ++ [bl])) ++ s) := by
  have hlead : ((b0 :: (bm ++ [bl])) ++ s).dropWhile isPySpace
      = (b0 :: (bm ++ [bl])) ++ s := by
    simp [List.dropWhile_cons, h0]
  rw [pyStripL, hlead]
  have hrev : ((b0 :: (bm ++ [bl])) ++ s).reverse
      = s.reverse ++ (bl :: (bm.reverse ++ [b0])) := by
    simp
  rw [hrev, List.dropWhile_append]
  by_cases hemp : (s.reverse.dropWhile isPySpace).isEmpty = true
  · rw [if_pos hemp]
    rw [List.dropWhile_cons, if_neg (by simp [hl])]
    refine ⟨[], ?_⟩
    simp
  · rw [if_neg hemp]
    refine ⟨(s.reverse.dropWhile isPySpace).reverse, ?_⟩
    simp

/-- Lowercasing keeps a lowercase prefix. -/
theorem prefix_map_toLower {p l : List Char} (h : p <+: l)
    (hp : p.map Char.toLower = p) : p <+: l.map Char.toLower := by
  obtain ⟨t, rfl⟩ := h
  rw [List.map_append, hp]
  exact List.prefix_append _ _

/-- toList distributes over String append. -/
theorem strToList_append (a b : String) : (a ++ b).toList = a.toList ++ b.toList :=
  String.data_append a b

/-- Every preflight add_outbound error text is classified "xray" by
`error_code_from_text`, whatever the stderr says. -/
theorem errorCodeFromText_preflight (linkId : Nat) (tag : String) (rc : Int)
    (stderr : String) :
    errorCodeFromText (preflightAddOutboundErrText linkId tag rc stderr) = "xray" := by
  have h1 : "xray_add_outbound_failed link_id=".toList
      = 'x' :: "ray_add_outbound_failed link_id=".toList := by decide
  have h2 : " stderr=".toList = " stderr".toList ++ ['='] := by decide
  have hE : (preflightAddOutboundErrText linkId tag rc stderr).toList
      = ('x' :: (("ray_add_outbound_failed link_id=".toList ++ (toString linkId).toList ++
          " tag=".toList ++ tag.toList ++ " rc=".toList ++ (toString rc).toList ++
          " stderr".toList) ++ ['='])) ++ stderr.toList := by
    simp only [preflightAddOutboundErrText, strToList_append]
    rw [h1, h2]
    simp
  have hpre : "xray_add_outbound_failed".toList <+:
      pyStripL (preflightAddOutboundErrText linkId tag rc stderr).toList := by
    rw [hE]
    refine List.IsPrefix.trans ?_
      (prefix_pyStripL_append 'x' _ '=' _ (by decide) (by decide))
    have hx : "xray_add_outbound_failed".toList
        = 'x' :: "ray_add_outbound_failed".toList := by decide
    rw [hx]
    refine List.cons_prefix_cons.mpr ⟨rfl, ?_⟩
    have step : ∀ {p l : List Char} (q : List Char), p <+: l → p <+: l ++ q :=
      fun _ h => h.trans (List.prefix_append _ _)
    have base : "ray_add_outbound_failed".toList <+:
        "ray_add_outbound_failed link_id=".toList :=
      List.isPrefixOf_iff_prefix.mp (by decide)
    exact step _ (step _ (step _ (step _ (step _ (step _ (step _ base))))))
  have hlow : "xray_add_outbound_failed".toList <+:
      (pyStripL (preflightAddOutboundErrText linkId tag rc stderr).toList).map
        Char.toLower :=
    prefix_map_toLower hpre (by decide)
  have hgen : ∀ s : String,
      ("xray_add_outbound_failed".toList <+: (pyStripL s.toList).map Char.toLower) →
      errorCodeFromText s = "xray" := by
    intro s hs
    have hb1 : (pyStrip s).toList = pyStripL s.toList := rfl
    have hb2 : (pyLower (pyStrip s)).toList = (pyStrip s).toList.map Char.toLower := rfl
    have hpy : pyIn "xray_add_outbound_failed" (pyLower (pyStrip s)) = true := by
      simp only [pyIn]
      rw [hb2, hb1]
      exact listContainsSub_of_prefix (List.isPrefixOf_iff_prefix.mpr hs)
    simp [errorCodeFromText, hpy]
  exact hgen _ hlow

/-- toList of an explicitly built string. -/
theorem toList_mk (l : List Char) : (String.mk l).toList = l := rfl

/-- Characters of a first token are not whitespace. -/
theorem mem_firstToken_not_space {c : Char} {l : List Char}
    (h : c ∈ firstToken l) : isPySpace c = false := by
  have := List.mem_takeWhile_imp h
  simpa using this

/-- A non-empty character list yields a non-empty string. -/
theorem mk_ne_empty {l : List Char} (h : ¬ (l.isEmpty = true)) :
    String.mk l ≠ "" := by
  cases l with
  | nil => simp at h
  | cons c t =>
    intro hc
    have := congrArg String.toList hc
    simp [toList_mk] at this

/-- The one-word policy never emits whitespace. -/
theorem oneWord_no_space (s : String) :
    (oneWord s).toList.all (fun c => !(isPySpace c)) = true := by
  simp only [oneWord]
  split
  · decide
  · split
    · decide
    · rw [toList_mk, List.all_eq_true]
      intro c hc
      have hc2 := List.mem_of_mem_take hc
      rcases List.mem_map.mp hc2 with ⟨a, ha, rfl⟩
      have hna := mem_firstToken_not_space ha
      have : a ≠ ' ' := by
        intro hsp
        rw [hsp] at hna
        simp [isPySpace] at hna
      simp [this, hna]

/-- The one-word policy emits at most 32 characters. -/
theorem oneWord_length_le (s : String) : (oneWord s).toList.length ≤ 32 := by
  simp only [oneWord]
  split
  · decide
  · split
    · decide
    · rw [toList_mk]
      exact List.length_take_le _ _

/-- The one-word policy never emits the empty string. -/
theorem oneWord_ne_empty (s : String) : oneWord s ≠ "" := by
  simp only [oneWord]
  split
  · decide
  · split
    · decide
    · next hne => exact mk_ne_empty hne

/-- C4 (confirmed): a result attribution with ok=false leaves ip,
country, city and datacenter untouched, while last_test_at,
last_test_ok, last_test_error and is_alive are written (and the lease
and binding are cleared). -/
theorem C4_failed_test_preserves_geolocation (linksCols : List String)
    (errCode nowS : String) (meta : Option TestMeta) (r : LinkRow) :
    (finalizeLinkRow linksCols false errCode nowS meta r).ip = r.ip ∧
    (finalizeLinkRow linksCols false errCode nowS meta r).country = r.country ∧
    (finalizeLinkRow linksCols false errCode nowS meta r).city = r.city ∧
    (finalizeLinkRow linksCols false errCode nowS meta r).datacenter = r.datacenter ∧
    (finalizeLinkRow linksCols false errCode nowS meta r).last_test_at = some nowS ∧
    (finalizeLinkRow linksCols false errCode nowS meta r).last_test_ok = 0 ∧
    (finalizeLinkRow linksCols false errCode nowS meta r).last_test_error
      = some (oneWord errCode) ∧
    (finalizeLinkRow linksCols false errCode nowS meta r).is_alive = 0 := by
  simp [finalizeLinkRow]

/-- C9 counterexample: a probe failure with error_type
"connection_timeout" is stored as "connection_timeout", not as the
claimed one-word code "timeout". -/
theorem C9_counterexample :
    errorCodeFromCheckResult (Json.obj [("error_type", Json.str "connection_timeout")])
      = "connection_timeout" ∧
    ("connection_timeout" : String) ≠ "timeout" := by
  exact ⟨rfl, by decide⟩

/-- C9 (corrected): the check-result error mapping is
check_host_subprocess_timeout→timeout, check_host_exit_nonzero→check,
json_parse_failed→badjson, empty_output→empty, missing→fail; every
other error_type token passes through unchanged (reduced to one word);
and every emitted code is one word: non-empty, whitespace-free, at most
32 characters. -/
theorem C9_amended_error_code_policy :
    errorCodeFromCheckResult
      (Json.obj [("error_type", Json.str "check_host_subprocess_timeout")]) = "timeout" ∧
    errorCodeFromCheckResult
      (Json.obj [("error_type", Json.str "check_host_exit_nonzero")]) = "check" ∧
    errorCodeFromCheckResult
      (Json.obj [("error_type", Json.str "json_parse_failed")]) = "badjson" ∧
    errorCodeFromCheckResult
      (Json.obj [("error_type", Json.str "empty_output")]) = "empty" ∧
    errorCodeFromCheckResult (Json.obj []) = "fail" ∧
    errorCodeFromCheckResult
      (Json.obj [("error_type", Json.str "connection_failed")]) = "connection_failed" ∧
    errorCodeFromCheckResult
      (Json.obj [("error_type", Json.str "proxy_error")]) = "proxy_error" ∧
    errorCodeFromCheckResult
      (Json.obj [("error_type", Json.str "tls_error")]) = "tls_error" ∧
    (∀ res : Json,
      (errorCodeFromCheckResult res).toList.all (fun c => !(isPySpace c)) = true ∧
      (errorCodeFromCheckResult res).toList.length ≤ 32 ∧
      errorCodeFromCheckResult res ≠ "") := by
  refine ⟨rfl, rfl, rfl, rfl, rfl, rfl, rfl, rfl, ?_⟩
  intro res
  exact ⟨oneWord_no_space _, oneWord_length_le _, oneWord_ne_empty _⟩

/-- Witness for C9: the pass-through token satisfies the one-word
shape. -/
theorem C9_amended_error_code_policy_witness :
    (errorCodeFromCheckResult
      (Json.obj [("error_type", Json.str "proxy_error")])).toList.all
        (fun c => !(isPySpace c)) = true ∧
    (errorCodeFromCheckResult
      (Json.obj [("error_type", Json.str "proxy_error")])).toList.length ≤ 32 ∧
    errorCodeFromCheckResult (Json.obj [("error_type", Json.str "proxy_error")]) ≠ "" :=
  C9_amended_error_code_policy.2.2.2.2.2.2.2.2
    (Json.obj [("error_type", Json.str "proxy_error")])

/-- C10 counterexample: with an empty candidate list probe_api_server
evaluates candidates[0] and raises IndexError (modelled none); it does
not return an element of the list, so the claim fails on the empty
list. -/
theorem C10_counterexample :
    probeApiServer (fun _ => false) [] = none ∧
    (¬ ∃ s, probeApiServer (fun _ => false) [] = some s ∧ s ∈ ([] : List String)) := by
  constructor
  · rfl
  · rintro ⟨s, _, hs⟩
    exact absurd hs (List.not_mem_nil s)

/-- C10 (corrected): for every non-empty candidate list,
probe_api_server returns an element of the list, and when no candidate
responds with valid JSON it returns the first candidate. -/
theorem C10_amended_probe_api_server (responds : String → Bool)
    (cs : List String) (h : cs ≠ []) :
    ((∀ c ∈ cs, responds c = false) → probeApiServer responds cs = cs.head?) ∧
    (∃ s, probeApiServer responds cs = some s ∧ s ∈ cs) := by
  constructor
  · intro hnone
    rw [probeApiServer]
    have : cs.find? responds = none := by
      rw [List.find?_eq_none]
      intro x hx
      simp [hnone x hx]
    rw [this]
  · rw [probeApiServer]
    cases hf : cs.find? responds with
    | some s => exact ⟨s, rfl, List.mem_of_find?_eq_some hf⟩
    | none =>
      cases cs with
      | nil => exact absurd rfl h
      | cons a t => exact ⟨a, rfl, List.mem_cons_self a t⟩

/-- Witness for C10: the default candidate endpoints with no responder
yield the first endpoint. -/
theorem C10_amended_probe_api_server_witness :
    (["127.0.0.1:10085", "127.0.0.1:8080", "127.0.0.1:11111"] : List String) ≠ [] ∧
    probeApiServer (fun _ => false)
      ["127.0.0.1:10085", "127.0.0.1:8080", "127.0.0.1:11111"]
      = (["127.0.0.1:10085", "127.0.0.1:8080", "127.0.0.1:11111"] : List String).head? :=
  ⟨by decide,
   (C10_amended_probe_api_server (fun _ => false) _ (by decide)).1 (fun _ _ => rfl)⟩

/-- Eligibility as claim C1 words it (for comparison with the code):
primary, non-empty config_json, not invalid, not unsupported, not in
use, and test_status idle or an expired running lease — with no
condition on last_test_at. -/
def claimC1Eligible (nowS : String) (r : LinkRow) : Bool :=
  (r.is_config_primary.getD 0 == 1) &&
  sqlNonBlank r.config_json &&
  (r.is_invalid == 0) &&
  (r.is_protocol_unsupported == 0) &&
  (r.is_in_use == 0) &&
  (r.test_status == "idle" ||
    (r.test_status == "running" &&
      (r.test_lock_until.isNone || decide ((r.test_lock_until.getD "") < nowS))))

/-- A primary, valid, supported record that failed an earlier test
(last_test_at set, last_test_ok=0) and is otherwise idle. -/
def c1Row : LinkRow :=
  { id := 1, url := "vmess://a", config_json := some "cfg",
    config_hash := some "h1", is_config_primary := some 1,
    outbound_tag := some "ob_1", last_test_at := some "2024-01-01 00:00:00",
    last_test_ok := 0, last_test_error := some "timeout",
    test_status := "idle" }

/-- C1 counterexample: a record satisfying every condition of the claim
(it failed a previous test) is not selected by the code, whose query
additionally requires last_test_at IS NULL — so a subsequent run does
not re-select it. -/
theorem C1_counterexample :
    claimC1Eligible "2024-06-01 00:00:00" c1Row = true ∧
    eligibleForTest "2024-06-01 00:00:00" c1Row = false ∧
    selectLinksForTest [c1Row] 1 "2024-06-01 00:00:00" = [] := by
  decide

/-- C1 (corrected): the eligibility query selects only records never
tested before (last_test_at IS NULL) that are primary, have a non-blank
outbound_tag and config_json, are not invalid and not unsupported, and
whose test_status is exactly "idle" or "running" with a NULL or expired
lock (is_in_use is not consulted); candidates are ordered by id alone;
a record with a recorded test outcome is never re-selected. -/
theorem C1_amended_eligibility :
    (∀ (nowS : String) (r : LinkRow), eligibleForTest nowS r = true ↔
      (r.is_config_primary.getD 0 = 1 ∧ r.last_test_at = none ∧
       sqlNonBlank r.outbound_tag = true ∧ sqlNonBlank r.config_json = true ∧
       r.is_invalid = 0 ∧ r.is_protocol_unsupported = 0 ∧
       (r.test_status = "idle" ∨ (r.test_status = "running" ∧
         (r.test_lock_until = none ∨ r.test_lock_until.getD "" < nowS))))) ∧
    (∀ (nowS : String) (r : LinkRow), r.last_test_at ≠ none →
      eligibleForTest nowS r = false) ∧
    (∀ (links : List LinkRow) (lim : Nat) (nowS : String),
      (selectLinksForTest links lim nowS).Pairwise (fun a b => a.id ≤ b.id) ∧
      (∀ r ∈ selectLinksForTest links lim nowS,
        eligibleForTest nowS r = true ∧ r ∈ links)) := by
  refine ⟨?_, ?_, ?_⟩
  · intro nowS r
    simp [eligibleForTest, sqlNonBlank, Option.isNone_iff_eq_none, and_assoc]
  · intro nowS r h
    simp [eligibleForTest, Option.isNone_iff_eq_none, h]
  · intro links lim nowS
    constructor
    · exact List.Pairwise.sublist (List.take_sublist _ _) (sorted_sortById _)
    · intro r hr
      have hr2 : r ∈ sortById (links.filter (eligibleForTest nowS)) :=
        List.mem_of_mem_take hr
      have hr3 : r ∈ links.filter (eligibleForTest nowS) := mem_sortById.mp hr2
      exact ⟨(List.mem_filter.mp hr3).2, (List.mem_filter.mp hr3).1⟩

/-- Witness for C1: the previously failed record is rejected by the
query at a concrete now. -/
theorem C1_amended_eligibility_witness :
    c1Row.last_test_at ≠ none ∧
    eligibleForTest "2024-06-01 00:00:00" c1Row = false :=
  ⟨by decide, C1_amended_eligibility.2.1 "2024-06-01 00:00:00" c1Row (by decide)⟩

/-- An eligible record in its pre-batch state (not in use, no binding). -/
def c2Link : LinkRow :=
  { id := 5, url := "vless://b", config_json := some "cfgjson",
    config_hash := some "h2", is_config_primary := some 1,
    outbound_tag := some "ob_5" }

/-- A free test slot. -/
def c2Slot : SlotRow :=
  { id := 11, role := "test", port := 9000, tag := "in_test_9000" }

/-- The reserve-bind-release pipeline of one canceled batch on the
single record and slot above (allocation, binding, then the
release_batch_locks cleanup of the error path). -/
def c2Final : List LinkRow × List SlotRow :=
  let links1 := reserveLinks [c2Link] [5] "2024-06-01 10:00:00"
    "2024-06-01 10:01:30" "host:1" "batch-1"
  let st2 := bindInboundToLink 11 "in_test_9000" 9000 5 "ob_5" links1 [c2Slot]
  releaseBatchLocks "batch-1" [9000] st2.1 st2.2

/-- C2 counterexample: canceling after reservation and binding and
running the cleanup does not restore the pre-batch state — the record
keeps is_in_use=1, bound_port and inbound_tag (the slot itself is
restored). -/
theorem C2_counterexample :
    c2Final.1 ≠ [c2Link] ∧
    c2Final.1.map (fun r => (r.is_in_use, r.bound_port, r.inbound_tag))
      = [((1 : Int), some (9000 : Int), some "in_test_9000")] ∧
    c2Link.is_in_use = 0 ∧ c2Link.bound_port = none ∧ c2Link.inbound_tag = none ∧
    c2Final.2 = [c2Slot] := by
  decide

/-- Reservation guard is implied by query eligibility. -/
theorem reserveEligible_of_eligible {nowS : String} {r : LinkRow}
    (h : eligibleForTest nowS r = true) : reserveEligible nowS r = true := by
  simp only [eligibleForTest, Bool.and_eq_true] at h
  simp only [reserveEligible, Bool.and_eq_true]
  tauto

/-- C2 (corrected): after reserve, bind and the release_batch_locks
cleanup, the slot is fully restored and the record's lease fields are
reset to the idle state (test_status "idle", lease columns NULL), but
the binding fields written by bind_inbound_to_link survive the cleanup:
is_in_use stays 1, bound_port and inbound_tag stay set — the store is
not in its exact pre-batch state. -/
theorem C2_amended_cleanup (r : LinkRow) (s : SlotRow)
    (outTag nowS lockS owner batchId : String)
    (h : eligibleForTest nowS r = true) (hrole : s.role = "test") :
    (releaseBatchLocks batchId [s.port]
      (bindInboundToLink s.id s.tag s.port r.id outTag
        (reserveLinks [r] [r.id] nowS lockS owner batchId) [s]).1
      (bindInboundToLink s.id s.tag s.port r.id outTag
        (reserveLinks [r] [r.id] nowS lockS owner batchId) [s]).2)
    = ([{ r with
            test_status := "idle", test_started_at := none,
            test_lock_until := none, test_lock_owner := none, test_batch_id := none,
            inbound_tag := some s.tag, is_in_use := 1, bound_port := some s.port }],
       [{ s with
            link_id := none, outbound_tag := none, is_active := 0,
            status := "new" }]) := by
  have hres := reserveEligible_of_eligible h
  simp [reserveLinks, bindInboundToLink, releaseBatchLocks, clearTestInbounds,
        bindLinkRow, bindSlotRow, hres, hrole]

/-- Witness for C2: the concrete record and slot above. -/
theorem C2_amended_cleanup_witness :
    eligibleForTest "2024-06-01 10:00:00" c2Link = true ∧
    c2Slot.role = "test" ∧
    c2Final
    = ([{ c2Link with
            test_status := "idle", test_started_at := none,
            test_lock_until := none, test_lock_owner := none, test_batch_id := none,
            inbound_tag := some "in_test_9000", is_in_use := 1,
            bound_port := some 9000 }],
       [{ c2Slot with
            link_id := none, outbound_tag := none, is_active := 0,
            status := "new" }]) :=
  ⟨by decide, rfl,
   C2_amended_cleanup c2Link c2Slot "ob_5" "2024-06-01 10:00:00"
     "2024-06-01 10:01:30" "host:1" "batch-1" (by decide) rfl⟩

/-- A reserved and bound record whose add_outbound is about to fail. -/
def c3Link : LinkRow :=
  { id := 7, url := "ss://c", config_json := some "sscfg",
    config_hash := some "h3", is_config_primary := some 1,
    outbound_tag := some "ob_7", test_status := "running",
    test_started_at := some "2024-06-01 10:00:00",
    test_lock_until := some "2024-06-01 10:01:00",
    test_lock_owner := some "host:1", test_batch_id := some "batch-1",
    is_in_use := 1, bound_port := some 9001, inbound_tag := some "in_test_9001" }

/-- The slot bound to it. -/
def c3Slot : SlotRow :=
  { id := 12, role := "test", port := 9001, tag := "in_test_9001",
    link_id := some 7, outbound_tag := some "ob_7", status := "bound" }

/-- C3 counterexample: an add_outbound failure whose stderr says
"unknown cipher method" is stored as last_test_error="xray", not
"ss_cipher", and is_unsupported stays 0 — the classifier of
test_batch_10.py has no ss_cipher/proto branch. -/
theorem C3_counterexample :
    (markLinkFailedAndFreeInbound ["ip", "country", "city", "datacenter"] 12 7
      (preflightAddOutboundErrText 7 "ob_7" 1 "unknown cipher method: xyz")
      "2024-06-01 10:00:05" [c3Link] [c3Slot]).1.map
        (fun r => (r.last_test_error, r.is_protocol_unsupported))
      = [(some "xray", (0 : Int))] ∧
    (some "xray" : Option String) ≠ some "ss_cipher" := by
  decide

/-- C3 (corrected): every preflight add_outbound failure — whatever the
stderr says, "unknown cipher method" included — is classified "xray"
(the error text embeds xray_add_outbound_failed), the record is
finalized as a failed test with the lease and binding cleared and the
slot freed, is_unsupported is left untouched, and the record is never
selected again because last_test_at is now set. -/
theorem C3_amended_add_outbound_failure (linksCols : List String)
    (otag stderr nowS : String) (rc : Int) (r : LinkRow) (s : SlotRow) :
    (markLinkFailedAndFreeInbound linksCols s.id r.id
      (preflightAddOutboundErrText r.id otag rc stderr) nowS [r] [s]
    = ([{ r with
            last_test_at := some nowS, last_test_ok := 0,
            last_test_error := some "xray", is_alive := 0,
            test_status := "idle", test_started_at := none,
            test_lock_until := none, test_lock_owner := none,
            test_batch_id := none, inbound_tag := none, is_in_use := 0,
            bound_port := none }],
       [{ s with
            last_test_at := some nowS, link_id := none, outbound_tag := none,
            is_active := 0, status := "idle" }])) ∧
    (∀ (futureNow : String) (r2 : LinkRow),
      r2 ∈ (markLinkFailedAndFreeInbound linksCols s.id r.id
        (preflightAddOutboundErrText r.id otag rc stderr) nowS [r] [s]).1 →
      eligibleForTest futureNow r2 = false) := by
  have hcode := errorCodeFromText_preflight r.id otag rc stderr
  have hone : oneWord "xray" = "xray" := by decide
  constructor
  · simp [markLinkFailedAndFreeInbound, finalizeDbAfterTest, finalizeLinkRow,
          finalizeSlotRow, hcode, hone]
  · intro futureNow r2 hr2
    simp only [markLinkFailedAndFreeInbound, finalizeDbAfterTest, List.map_cons,
      List.map_nil, beq_self_eq_true, if_pos, List.mem_singleton] at hr2
    subst hr2
    simp [finalizeLinkRow, eligibleForTest]

/-- The finalized form of the c3 record after the failed preflight. -/
def c3Fin : LinkRow :=
  { c3Link with
      last_test_at := some "2024-06-01 10:00:05", last_test_ok := 0,
      last_test_error := some "xray", is_alive := 0, test_status := "idle",
      test_started_at := none, test_lock_until := none, test_lock_owner := none,
      test_batch_id := none, inbound_tag := none, is_in_use := 0,
      bound_port := none }

/-- Witness for C3: the concrete failed record is ineligible at a later
time. -/
theorem C3_amended_add_outbound_failure_witness :
    c3Fin ∈ (markLinkFailedAndFreeInbound ["ip"] c3Slot.id c3Link.id
      (preflightAddOutboundErrText c3Link.id "ob_7" 1 "unknown cipher method")
      "2024-06-01 10:00:05" [c3Link] [c3Slot]).1 ∧
    eligibleForTest "2030-01-01 00:00:00" c3Fin = false :=
  ⟨by decide,
   (C3_amended_add_outbound_failure ["ip"] "ob_7" "unknown cipher method"
     "2024-06-01 10:00:05" 1 c3Link c3Slot).2 "2030-01-01 00:00:00" c3Fin
     (by decide)⟩

/-- C5 (confirmed): three records sharing one fingerprint with ids 42,
17, 99 and NULL group_id / is_primary get group_id "17" (the textual
min id) on all three and is_primary=1 exactly on id 17 after one
grouping step, whatever their other fields are. -/
theorem C5_primary_election (h : String) (b1 b2 b3 : LinkRow) :
    processHashGrouping h
      [{ b1 with
           id := 42, config_hash := some h, config_group_id := none,
           is_config_primary := none },
       { b2 with
           id := 17, config_hash := some h, config_group_id := none,
           is_config_primary := none },
       { b3 with
           id := 99, config_hash := some h, config_group_id := none,
           is_config_primary := none }]
    = [{ b1 with
           id := 42, config_hash := some h, config_group_id := some "17",
           is_config_primary := some 0 },
       { b2 with
           id := 17, config_hash := some h, config_group_id := some "17",
           is_config_primary := some 1 },
       { b3 with
           id := 99, config_hash := some h, config_group_id := some "17",
           is_config_primary := some 0 }] := by
  have ht : (toString (17 : Nat)) = "17" := rfl
  simp [processHashGrouping, minIdForHash, hashRows, findExistingGroupIdForHash,
        fillMissingGroupIdOnly, getPrimaryState, enforcePrimaryMinId, sortById,
        insertById, Nat.min_def, ht]

/-- Supported set as claim C6 words it. -/
def claimC6Supported : List String := ["vmess", "vless", "trojan", "shadowsocks"]

/-- A detected scheme is never the empty string. -/
theorem detectProtocol_ne_empty {url : String} {p : String}
    (hd : detectProtocol url = some p) : p ≠ "" := by
  rw [detectProtocol] at hd
  split at hd
  · exact absurd hd (by simp)
  · simp only [] at hd
    split at hd
    · exact absurd hd (by simp)
    · split at hd
      · split at hd
        · exact absurd hd (by simp)
        · next hne =>
          rw [Option.some_inj] at hd
          rw [hd] at hne
          exact hne
      · exact absurd hd (by simp)

/-- C6 counterexample: the code's supported set is vless, vmess, ss,
trojan — a record whose uri scheme is the spelled-out "shadowsocks" is
marked unsupported, although the claim's supported set contains
shadowsocks and predicts it is not marked. -/
theorem C6_counterexample :
    detectProtocol "shadowsocks://example.com:8388" = some "shadowsocks" ∧
    ("shadowsocks" : String) ∈ claimC6Supported ∧
    shouldMarkUnsupported "shadowsocks://example.com:8388" = true := by
  decide

/-- C6 (corrected): the unsupported pass marks a scanned record iff its
uri has a detectable scheme whose lowercase form is outside
the code's set vmess, vless, ss, trojan; hysteria2 and the literal
scheme "shadowsocks" are marked, the four code-supported schemes are
not; a marked row gets is_protocol_unsupported=1 (is_invalid reset 0)
and is never selected for testing. -/
theorem C6_amended_unsupported_marking :
    (∀ url : String, shouldMarkUnsupported url = true ↔
      ∃ p, detectProtocol url = some p ∧ p ∉ supportedProtocols) ∧
    shouldMarkUnsupported "hysteria2://host:443" = true ∧
    shouldMarkUnsupported "vmess://abc" = false ∧
    shouldMarkUnsupported "vless://abc" = false ∧
    shouldMarkUnsupported "trojan://abc" = false ∧
    shouldMarkUnsupported "ss://abc" = false ∧
    shouldMarkUnsupported "shadowsocks://abc" = true ∧
    (∀ r : LinkRow, unsupportedScanEligible r = true →
      shouldMarkUnsupported r.url = true →
      markUnsupportedPass [r] = [{ r with is_protocol_unsupported := 1, is_invalid := 0 }]) ∧
    (∀ (nowS : String) (r : LinkRow), r.is_protocol_unsupported = 1 →
      eligibleForTest nowS r = false) := by
  refine ⟨?_, by decide, by decide, by decide, by decide, by decide, by decide, ?_, ?_⟩
  · intro url
    cases hdet : detectProtocol url with
    | none => simp [shouldMarkUnsupported, hdet]
    | some p =>
      have hne := detectProtocol_ne_empty hdet
      simp [shouldMarkUnsupported, hdet, hne]
  · intro r he hm
    simp [markUnsupportedPass, he, hm]
  · intro nowS r h
    simp [eligibleForTest, h]

/-- An unscanned hysteria2 record. -/
def c6Row : LinkRow :=
  { id := 3, url := "hysteria2://example.com:443" }

/-- Witness for C6: the hysteria2 record is marked by the pass, and a
marked record is ineligible for testing. -/
theorem C6_amended_unsupported_marking_witness :
    (unsupportedScanEligible c6Row = true ∧
     shouldMarkUnsupported c6Row.url = true ∧
     markUnsupportedPass [c6Row]
       = [{ c6Row with is_protocol_unsupported := 1, is_invalid := 0 }]) ∧
    (({ c6Row with is_protocol_unsupported := 1, is_invalid := 0 } : LinkRow).is_protocol_unsupported = 1 ∧
     eligibleForTest "2024-01-01 00:00:00"
       { c6Row with is_protocol_unsupported := 1, is_invalid := 0 } = false) :=
  ⟨⟨by decide, by decide,
    C6_amended_unsupported_marking.2.2.2.2.2.2.2.1 c6Row (by decide) (by decide)⟩,
   ⟨rfl,
    C6_amended_unsupported_marking.2.2.2.2.2.2.2.2 "2024-01-01 00:00:00"
      { c6Row with is_protocol_unsupported := 1, is_invalid := 0 } rfl⟩⟩

/-- A record with two concatenated scheme segments in its url, empty
config_json, but a non-empty config_hash. -/
def c7Row : LinkRow :=
  { id := 9, url := "vmess://A\nvless://B", config_json := some "",
    config_hash := some "deadbeef" }

/-- C7 counterexample: the normalization scan filters on config_hash,
not config_json — a two-scheme record with empty config_json but a
non-empty config_hash is skipped entirely: no children inserted, the
original not marked invalid. -/
theorem C7_counterexample :
    c7Row.config_json = some "" ∧
    splitMultiConfigUrl c7Row.url = ["vmess://A", "vless://B"] ∧
    normalizeLinksPass [c7Row] = [c7Row] := by
  decide

/-- C7 (corrected): for a record whose config_hash (not config_json) is
empty, which is not invalid or unsupported and whose url splits into
two scheme segments not already present, the normalization pass inserts
exactly the two segments as fresh rows and marks the original invalid. -/
theorem C7_amended_normalization (r : LinkRow) (a b : String)
    (he : normalizeScanEligible r = true)
    (hs : splitMultiConfigUrl r.url = [a, b])
    (hna : a ≠ r.url) (hnb : b ≠ r.url) (hab : a ≠ b) :
    normalizeLinksPass [r]
      = [{ r with is_invalid := 1 }, newLinkRow (r.id + 1) a,
         newLinkRow (r.id + 2) b] := by
  have ha2 : (r.url == a) = false := by simp [Ne.symm hna]
  have hb2 : (r.url == b) = false := by simp [Ne.symm hnb]
  have hab2 : (a == b) = false := by simp [hab]
  simp [normalizeLinksPass, sortById, insertById, he, normalizeRowStep, hs,
        insertOrIgnoreUrl, markInvalidById, newLinkRow, maxId, ha2, hb2, hab2,
        Nat.max_def]
  omega

/-- A fresh two-scheme record (schema defaults, empty config_hash). -/
def c7wRow : LinkRow :=
  { id := 9, url := "vmess://A\nvless://B" }

/-- Witness for C7: the concrete two-scheme record is split into two
children and invalidated. -/
theorem C7_amended_normalization_witness :
    normalizeScanEligible c7wRow = true ∧
    splitMultiConfigUrl c7wRow.url = ["vmess://A", "vless://B"] ∧
    normalizeLinksPass [c7wRow]
      = [{ c7wRow with is_invalid := 1 }, newLinkRow 10 "vmess://A",
         newLinkRow 11 "vless://B"] :=
  ⟨by decide, by decide,
   C7_amended_normalization c7wRow "vmess://A" "vless://B" (by decide) (by decide)
     (by decide) (by decide) (by decide)⟩

/-- A guarded-empty option of a string is not the empty string. -/
theorem if_empty_some {t s : String}
    (h : (if t = "" then none else some t) = some s) : s ≠ "" := by
  split at h
  · exact absurd h (by simp)
  · next hne =>
    rw [Option.some_inj] at h
    rw [← h]
    exact hne

/-- The `_safe_str` helper never yields the empty string. -/
theorem safeStr_ne_empty {j : Json} {s : String} (h : safeStr j = some s) :
    s ≠ "" := by
  cases j with
  | null => simp [safeStr] at h
  | bool b => simp only [safeStr] at h; exact if_empty_some h
  | num n => simp only [safeStr] at h; exact if_empty_some h
  | str t => simp only [safeStr] at h; exact if_empty_some h
  | arr xs => simp only [safeStr] at h; exact if_empty_some h
  | obj kvs => simp only [safeStr] at h; exact if_empty_some h

/-- Empty character data means the empty string. -/
theorem toList_eq_nil_iff {s : String} : s.toList = [] ↔ s = "" := by
  cases s with
  | mk data =>
    constructor
    · intro h
      simp only [String.toList] at h
      exact congrArg String.mk h
    · intro h
      rw [h]
      rfl

/-- Lowercasing preserves non-emptiness. -/
theorem pyLower_ne_empty {s : String} (h : s ≠ "") : pyLower s ≠ "" := by
  intro hc
  apply h
  have h2 : (pyLower s).toList = s.toList.map Char.toLower := rfl
  rw [hc] at h2
  have h3 : s.toList.map Char.toLower = [] := by simpa using h2.symm
  exact toList_eq_nil_iff.mp (List.map_eq_nil_iff.mp h3)

/-- The `_norm_host` helper never yields the empty string. -/
theorem normHost_ne_empty {j : Json} {a : String} (h : normHost j = some a) :
    a ≠ "" := by
  unfold normHost at h
  cases hs : safeStr j with
  | none => rw [hs] at h; simp at h
  | some s =>
    rw [hs] at h
    rw [Option.some_inj] at h
    rw [← h]
    exact pyLower_ne_empty (safeStr_ne_empty hs)

/-- The `_norm_cipher` helper never yields the empty string. -/
theorem normCipher_ne_empty {j : Json} {m : String} (h : normCipher j = some m) :
    m ≠ "" := by
  cases hs : safeStr j with
  | none =>
    simp only [normCipher, hs] at h
    exact Option.noConfusion h
  | some s =>
    simp only [normCipher, hs] at h
    split at h
    · rw [Option.some_inj] at h
      rw [← h]
      exact pyLower_ne_empty (safeStr_ne_empty hs)
    · rw [Option.some_inj] at h
      rw [← h]
      exact safeStr_ne_empty hs

/-- An optional entry only carries its own key. -/
theorem mem_optEntry {k : String} {v : Option Json} {kv : String × Json}
    (h : kv ∈ optEntry k v) : kv.1 = k := by
  cases v with
  | none => simp [optEntry] at h
  | some j =>
    simp only [optEntry, List.mem_singleton] at h
    rw [h]

/-- The stream fingerprint never binds the key "password". -/
theorem streamFingerprint_key_ne_password (stream : Json) :
    ∀ kv ∈ extractStreamFingerprint stream, kv.1 ≠ "password" := by
  intro kv h
  simp only [extractStreamFingerprint] at h
  rcases List.mem_append.mp h with h | h
  · rcases List.mem_append.mp h with h | h
    · rcases List.mem_append.mp h with h | h
      · rcases List.mem_append.mp h with h | h
        · rcases List.mem_append.mp h with h | h
          · simp only [List.mem_singleton] at h
            have hk : kv.1 = "network" := by rw [h]
            rw [hk]
            decide
          · simp only [List.mem_singleton] at h
            have hk : kv.1 = "tls" := by rw [h]
            rw [hk]
            decide
        · rw [mem_optEntry h]
          decide
      · rw [mem_optEntry h]
        decide
    · rw [mem_optEntry h]
      decide
  · rw [mem_optEntry h]
    decide

/-- An entry of the base dict whose key the update does not mention
survives dict.update. -/
theorem mem_dictUpdate_of_key_not_in {base upd : List (String × Json)}
    {kv : String × Json} (hkv : kv ∈ base)
    (hk : ∀ kv2 ∈ upd, kv2.1 ≠ kv.1) : kv ∈ dictUpdate base upd := by
  unfold dictUpdate
  refine List.mem_append.mpr (Or.inl ?_)
  refine List.mem_map.mpr ⟨kv, hkv, ?_⟩
  have hfind : upd.find? (fun kv2 => kv2.1 == kv.1) = none := by
    rw [List.find?_eq_none]
    intro x hx
    simp [hk x hx]
  simp [hfind]

/-- C8 (confirmed): a shadowsocks outbound whose settings yield
address, port and method and whose password is the empty string is not
skipped — the extractor builds an identity dictionary containing
password "" and the engine hashes its canonical dump with SHA-256; and
equal identity dictionaries always produce equal fingerprints. -/
theorem C8_shadowsocks_empty_password_fingerprint :
    (∀ (ob : Json) (a : String) (p : Int) (m : String),
      normHost (ssPicked ob).address = some a →
      safeInt (ssPicked ob).port = some p →
      normCipher (ssPicked ob).method = some m →
      (ssPicked ob).password = Json.str "" →
      ∃ ident, extractShadowsocksIdentity ob = some ident ∧
        ("password", Json.str "") ∈ ident ∧
        fingerprintOfIdentity ident
          = sha256Hex (canonicalJsonStr (Json.obj ident))) ∧
    (∀ (ob1 ob2 : Json) (ident1 ident2 : List (String × Json)),
      extractShadowsocksIdentity ob1 = some ident1 →
      extractShadowsocksIdentity ob2 = some ident2 →
      ident1 = ident2 →
      fingerprintOfIdentity ident1 = fingerprintOfIdentity ident2) := by
  constructor
  · intro ob a p m ha hp hm hpw
    have hane := normHost_ne_empty ha
    have hmne := normCipher_ne_empty hm
    have hga : (a == "") = false := by simp [hane]
    have hgm : (m == "") = false := by simp [hmne]
    have hps : safeStrAllowEmpty (Json.str "") = some "" := rfl
    cases ob with
    | null => simp [ssPicked, ssSettings, jGet, pyOr, jTruthy, jIsNone,
        normHost, safeStr] at ha
    | bool b => simp [ssPicked, ssSettings, jGet, pyOr, jTruthy, jIsNone,
        normHost, safeStr] at ha
    | num n => simp [ssPicked, ssSettings, jGet, pyOr, jTruthy, jIsNone,
        normHost, safeStr] at ha
    | str t => simp [ssPicked, ssSettings, jGet, pyOr, jTruthy, jIsNone,
        normHost, safeStr] at ha
    | arr xs => simp [ssPicked, ssSettings, jGet, pyOr, jTruthy, jIsNone,
        normHost, safeStr] at ha
    | obj kvs =>
      simp only [extractShadowsocksIdentity, ha, hp, hm, hpw, hps, hga, hgm,
        Bool.or_self, Bool.false_eq_true, if_neg, if_false]
      refine ⟨_, rfl, ?_, rfl⟩
      refine mem_dictUpdate_of_key_not_in ?_ ?_
      · simp
      · intro kv2 hkv2
        exact streamFingerprint_key_ne_password _ kv2 hkv2
  · intro ob1 ob2 ident1 ident2 h1 h2 heq
    rw [heq]

/-- A concrete shadowsocks outbound with an empty password. -/
def c8Outbound : Json :=
  Json.obj [("protocol", Json.str "shadowsocks"),
    ("settings", Json.obj [("servers", Json.arr [Json.obj
      [("address", Json.str "Host.Example.com"), ("port", Json.num 8388),
       ("method", Json.str "AES-256-GCM"), ("password", Json.str "")]])]),
    ("streamSettings", Json.obj [("network", Json.str "tcp")])]

/-- Witness for C8: the concrete outbound above is hashed, with
password "" in its identity dictionary. -/
theorem C8_shadowsocks_empty_password_fingerprint_witness :
    normHost (ssPicked c8Outbound).address = some "host.example.com" ∧
    safeInt (ssPicked c8Outbound).port = some 8388 ∧
    normCipher (ssPicked c8Outbound).method = some "aes-256-gcm" ∧
    (ssPicked c8Outbound).password = Json.str "" ∧
    ∃ ident, extractShadowsocksIdentity c8Outbound = some ident ∧
      ("password", Json.str "") ∈ ident ∧
      fingerprintOfIdentity ident = sha256Hex (canonicalJsonStr (Json.obj ident)) :=
  ⟨rfl, rfl, rfl, rfl,
   C8_shadowsocks_empty_password_fingerprint.1 c8Outbound "host.example.com" 8388
     "aes-256-gcm" rfl rfl rfl rfl⟩

end XrayMgr
